import Mathlib

/-!
Verification of the Letterboxd women-related-analytics pipeline
(`api/src/main.py`): a shallow embedding of the metadata fetcher
(`get_movie_data`), the enrichment orchestrator and the aggregation
engine (`analyze_letterboxd`), together with theorems settling the
specified properties.

Modelling conventions:
* machine floats (ratings) are modelled as exact rationals `ℚ`;
* a Python value that may be absent (a missing dict key, a NaN cell)
  is an `Option`;
* a network step that may raise (connection error, timeout, malformed
  JSON body) is an `Except Unit` value supplied by the environment;
  the `try/except` wrapper of `get_movie_data` becomes a `match` on
  the resulting `Except`;
* the persistent CSV cache is modelled as a list of entries whose
  field values round-trip exactly (persistence technology is out of
  scope for the pipeline design).
-/

namespace WomenAnalytics

/-- Gender category assigned by the fetcher: TMDB code 1 is `Female`,
everything else is `Other` (main.py line 43). -/
inductive Gender where
  | Female : Gender
  | Other : Gender
deriving DecidableEq, Repr

/-- A normalized director record, as stored in the cache. -/
structure Director where
  name : String
  gender : Gender
deriving DecidableEq, Repr

/-- One crew entry of the TMDB credits response.  Each field is the
corresponding dict key; `none` models a missing key, whose subscript
access raises `KeyError` in Python.  The gender code is the upstream
integer code (line 43 compares it with the literal `1`). -/
structure CrewEntry where
  name : Option String
  job : Option String
  gender : Option Int
deriving DecidableEq, Repr

/-- One element of the TMDB search response `results` list; `id` is
`none` when the dict has no "id" key (subscripting then raises). -/
structure SearchEntry where
  id : Option Int
deriving DecidableEq, Repr

/-- The network environment a single `get_movie_data` call runs in.
`search` is the outcome of `search_res.json().get("results")`:
`Except.error` models a raised network error / timeout / malformed
body, `.ok none` a body without a "results" key, `.ok (some l)` the
results list.  `credits` is the outcome of
`credits_res.json().get("crew", [])` (line 40): the missing-key
default `[]` is already folded in, so only errors and a list remain. -/
structure FetchEnv where
  search : Except Unit (Option (List SearchEntry))
  credits : Except Unit (List CrewEntry)
deriving Repr

/-- The list comprehension of main.py lines 42-45: keep crew entries
whose `job` equals "Director" and classify each kept person.  Field
accesses `p["job"]`, `p["name"]`, `p["gender"]` raise `KeyError` on a
missing key (`Except.error`), which aborts the whole comprehension. -/
def classifyCrew : List CrewEntry → Except Unit (List Director)
  | [] => Except.ok []
  | p :: rest =>
      match p.job with
      | none => Except.error ()
      | some j =>
          if j = "Director" then
            match p.name, p.gender with
            | some nm, some g =>
                match classifyCrew rest with
                | Except.error e => Except.error e
                | Except.ok ds =>
                    Except.ok (⟨nm, if g = 1 then Gender.Female else Gender.Other⟩ :: ds)
            | _, _ => Except.error ()
          else classifyCrew rest

/-- The body of the `try` block of `get_movie_data` (lines 28-46), in
the exception monad: search, bail out with `(None, [])` on a falsy
results value, take the first result's id, fetch credits, classify. -/
def get_movie_dataE (env : FetchEnv) : Except Unit (Option Int × List Director) :=
  match env.search with
  | Except.error e => Except.error e
  | Except.ok none => Except.ok (none, [])
  | Except.ok (some []) => Except.ok (none, [])
  | Except.ok (some (r :: _)) =>
      match r.id with
      | none => Except.error ()
      | some movieId =>
          match env.credits with
          | Except.error e => Except.error e
          | Except.ok crewList =>
              match classifyCrew crewList with
              | Except.error e => Except.error e
              | Except.ok directors => Except.ok (some movieId, directors)

/-- The function `get_movie_data` (lines 23-49): the `try` body with the
`except Exception: return None, []` handler applied. -/
def get_movie_data (env : FetchEnv) : Option Int × List Director :=
  match get_movie_dataE env with
  | Except.ok v => v
  | Except.error _ => (none, [])

/-- A raw uploaded row after the column coercions of lines 54-55:
`name` is the Name cell (`none` = NaN), `rating` is
`pd.to_numeric(Rating, errors="coerce")` (`none` = missing or
non-numeric), `year` is the Year cell already as the string
`astype(str)` produces, `uri` the Letterboxd URI cell. -/
structure RawRow where
  name : Option String
  year : String
  rating : Option ℚ
  uri : String
deriving DecidableEq, Repr

/-- A cleaned user record surviving `dropna(subset=["Name","Rating"])`
(line 56). -/
structure UserRecord where
  name : String
  year : String
  rating : ℚ
  uri : String
deriving DecidableEq, Repr

/-- Line 56: drop every row whose Name or (coerced) Rating is NaN. -/
def cleanRows (rows : List RawRow) : List UserRecord :=
  rows.filterMap fun r =>
    match r.name, r.rating with
    | some n, some q => some ⟨n, r.year, q, r.uri⟩
    | _, _ => none

/-- Line 57: the join key is the concatenation Name + str(Year). -/
def userKey (r : UserRecord) : String := r.name ++ r.year

/-- One row of the persistent cache (schema of line 15, with the
Directors column already `json.loads`-decoded).  `tmdb` is the
nullable TMDB_ID. -/
structure CacheEntry where
  name : String
  year : String
  uri : String
  tmdb : Option Int
  directors : List Director
deriving DecidableEq, Repr

/-- Line 65: the cache key is the same Name + Year concatenation. -/
def entryKey (e : CacheEntry) : String := e.name ++ e.year

/-- Whether a user record's key is present in the cache (line 67,
`known_mask`). -/
def isKnown (cache : List CacheEntry) (r : UserRecord) : Bool :=
  cache.any fun e => entryKey e = userKey r

/-- Line 68: `to_fetch = df_user[~known_mask]` — the user rows (not
deduplicated keys) whose key is absent from the cache. -/
def toFetch (users : List UserRecord) (cache : List CacheEntry) : List UserRecord :=
  users.filter fun r => ! isKnown cache r

/-- The (Name, Year) arguments of the `get_movie_data` calls issued on
lines 72-75: one call per row of `to_fetch`. -/
def fetchCalls (users : List UserRecord) (cache : List CacheEntry) : List (String × String) :=
  (toFetch users cache).map fun r => (r.name, r.year)

/-- Lines 81-89: build one new cache row from a user row and its fetch
result.  `int(m_id) if m_id else None` maps both `None` and the falsy
id `0` to null; the directors list is stored as fetched. -/
def newRowOf (r : UserRecord) (res : Option Int × List Director) : CacheEntry :=
  { name := r.name
    year := r.year
    uri := r.uri
    tmdb := match res.1 with
      | none => none
      | some k => if k = 0 then none else some k
    directors := res.2 }

/-- Lines 78-89: the new rows, one per `to_fetch` row, paired with the
`asyncio.gather` results in order. -/
def newRows (toF : List UserRecord) (results : List (Option Int × List Director)) :
    List CacheEntry :=
  List.zipWith newRowOf toF results

/-- Lines 72-76: `asyncio.gather` over one `get_movie_data` call per
row, each call running in the environment `envOf` assigns to its
(Name, Year) arguments; results are in row order. -/
def gatherFetch (envOf : String → String → FetchEnv) (rows : List UserRecord) :
    List (Option Int × List Director) :=
  rows.map fun r => get_movie_data (envOf r.name r.year)

/-- Lines 70-97: the cache content after the enrichment step.  The
fetch environment of each call is given by `envOf` on the call's
(Name, Year) arguments.  When `to_fetch` is empty no write happens and
the cache is unchanged; otherwise the old content is concatenated with
the new rows (`pd.concat`) and saved. -/
def enrich (envOf : String → String → FetchEnv) (users : List UserRecord)
    (cache : List CacheEntry) : List CacheEntry :=
  let toF := toFetch users cache
  cache ++ newRows toF (gatherFetch envOf toF)

/-- Lines 100-104: the inner merge of the user rows with the enriched
cache on (Name, Year).  Pandas produces one output row per matching
(user row, cache row) pair, user rows in order, each paired with every
matching cache row in cache order. -/
def merged (users : List UserRecord) (cache : List CacheEntry) :
    List (UserRecord × CacheEntry) :=
  users.flatMap fun u =>
    (cache.filter fun e => e.name = u.name ∧ e.year = u.year).map fun e => (u, e)

/-- The three accumulators of the aggregation loop, in order:
`female_director_list`, `female_ratings`, `other_ratings`. -/
abbrev AggState := List String × List ℚ × List ℚ

/-- The body of the inner loop of lines 112-118 for one director of
one merged row. -/
def aggStep (rating : ℚ) (acc : AggState) (d : Director) : AggState :=
  if d.gender = Gender.Female then
    (acc.1 ++ [d.name], acc.2.1 ++ [rating], acc.2.2)
  else
    (acc.1, acc.2.1, acc.2.2 ++ [rating])

/-- The aggregation loop of lines 110-118: for every merged row, for
every director, append to the tally / female bucket / other bucket. -/
def aggLoop (m : List (UserRecord × CacheEntry)) : AggState :=
  m.foldl (fun acc r => r.2.directors.foldl (aggStep r.1.rating) acc) ([], [], [])

/-- The `Counter(names)` keys in first-occurrence order with their counts. -/
def directorCounts (names : List String) : List (String × Nat) :=
  names.eraseDups.map fun n => (n, names.count n)

/-- The expression `most_common(1)[0]` guarded by `if director_counts:` (lines
120-124): the first key holding the maximal count (ties broken by
first-encountered order), `none` when the tally is empty. -/
def mostCommon1 (names : List String) : Option (String × Nat) :=
  (directorCounts names).foldl
    (fun acc p =>
      match acc with
      | none => some p
      | some b => if p.2 > b.2 then some p else some b)
    none

/-- Line 128: a cache row counts as female-directed when at least one
director has gender Female. -/
def isFemaleDirected (e : CacheEntry) : Bool :=
  e.directors.any fun d => d.gender = Gender.Female

/-- Lines 126-130: the female-directed subset of the merged rows. -/
def femaleDirected (m : List (UserRecord × CacheEntry)) :
    List (UserRecord × CacheEntry) :=
  m.filter fun r => isFemaleDirected r.2

/-- The column maximum `df["Rating"].max()` over a row list, 0 on an empty list (the code
only evaluates it on a non-empty frame). -/
def ratingMax : List (UserRecord × CacheEntry) → ℚ
  | [] => 0
  | r :: rest => rest.foldl (fun acc s => max acc s.1.rating) r.1.rating

/-- One element of `top_female_picks` (columns of line 140);
`tmdb` is a plain integer after the `fillna(0).astype(int)` of
line 137. -/
structure Pick where
  name : String
  year : String
  tmdb : Int
  rating : ℚ
  uri : String
deriving DecidableEq, Repr

/-- Line 137 + 139-141: render one qualifying merged row as an output
pick, substituting 0 for a null TMDB_ID. -/
def renderPick (r : UserRecord × CacheEntry) : Pick :=
  ⟨r.1.name, r.1.year, (r.2.tmdb).getD 0, r.1.rating, r.1.uri⟩

/-- Lines 132-141: `top_female_picks` — empty when no merged row is
female-directed, otherwise the female-directed rows whose rating
equals the maximum rating among female-directed rows, rendered. -/
def topFemalePicks (m : List (UserRecord × CacheEntry)) : List Pick :=
  match femaleDirected m with
  | [] => []
  | _ :: _ =>
      ((femaleDirected m).filter fun r => r.1.rating = ratingMax (femaleDirected m)).map
        renderPick

/-- The mean `sum(l)/len(l) if l else 0` (lines 145-146). -/
def meanOrZero (l : List ℚ) : ℚ :=
  if l = [] then 0 else l.sum / l.length

/-- The response body of lines 143-150. -/
structure AnalyzeResult where
  female_avg : ℚ
  other_avg : ℚ
  most_watched : Option (String × Nat)
  picks : List Pick
deriving DecidableEq, Repr

/-- The whole `analyze_letterboxd` handler (lines 52-150): clean the
upload, enrich the cache, merge, aggregate.  Returns the response
together with the cache content left on disk. -/
def analyze (envOf : String → String → FetchEnv) (raw : List RawRow)
    (cache0 : List CacheEntry) : AnalyzeResult × List CacheEntry :=
  let users := cleanRows raw
  let cache1 := enrich envOf users cache0
  let m := merged users cache1
  let st := aggLoop m
  ({ female_avg := meanOrZero st.2.1
     other_avg := meanOrZero st.2.2
     most_watched := mostCommon1 st.1
     picks := topFemalePicks m }, cache1)

/-! Spec-side definitions, written from the specification's wording,
to be compared with the embedded code above. -/

/-- Spec wording (§4.4 step 1): one tally entry per (record, director)
pair whose director is Female. -/
def specTally (r : UserRecord × CacheEntry) : List String :=
  r.2.directors.filterMap fun d =>
    if d.gender = Gender.Female then some d.name else none

/-- Spec wording (§4.4 step 2): the record's rating once per Female
director of the record. -/
def specFemaleBucket (r : UserRecord × CacheEntry) : List ℚ :=
  r.2.directors.filterMap fun d =>
    if d.gender = Gender.Female then some r.1.rating else none

/-- Spec wording (§4.4 step 2): the record's rating once per non-Female
director of the record. -/
def specOtherBucket (r : UserRecord × CacheEntry) : List ℚ :=
  r.2.directors.filterMap fun d =>
    if d.gender = Gender.Female then none else some r.1.rating

/-- Every crew entry has a job key, and every entry kept as a Director
also has name and gender keys — the condition under which the
comprehension of lines 42-45 raises no `KeyError`. -/
abbrev crewWellKeyed (crew : List CrewEntry) : Prop :=
  ∀ p ∈ crew, p.job ≠ none ∧ (p.job = some "Director" → p.name ≠ none ∧ p.gender ≠ none)

/-- Spec wording (§4.2 steps 3-4): keep exactly the crew entries whose
job is "Director"; code 1 maps to Female, any other code to Other. -/
def keepDirectorsSpec (crew : List CrewEntry) : List Director :=
  crew.filterMap fun p =>
    match p.job, p.name, p.gender with
    | some "Director", some nm, some g =>
        some ⟨nm, if g = 1 then Gender.Female else Gender.Other⟩
    | _, _, _ => none

/-- Spec wording (§4.4 step 5): the picks are exactly the merged rows
that are female-directed and whose rating equals the maximum rating
among female-directed rows. -/
def topFemalePicksSpec (m : List (UserRecord × CacheEntry)) : List Pick :=
  (m.filter fun r =>
      isFemaleDirected r.2 && decide (r.1.rating = ratingMax (femaleDirected m))).map
    renderPick

/-- A raw row that survives the cleaning of lines 55-56: Name present
and Rating numeric. -/
def goodRow (r : RawRow) : Bool :=
  r.name.isSome && r.rating.isSome

/-! Helper lemmas. -/

theorem foldl_aggStep (q : ℚ) (ds : List Director) (acc : AggState) :
    ds.foldl (aggStep q) acc =
      (acc.1 ++ (ds.filterMap fun d => if d.gender = Gender.Female then some d.name else none),
       acc.2.1 ++ (ds.filterMap fun d => if d.gender = Gender.Female then some q else none),
       acc.2.2 ++ (ds.filterMap fun d => if d.gender = Gender.Female then none else some q)) := by
  induction ds generalizing acc with
  | nil => simp
  | cons d rest ih =>
      by_cases h : d.gender = Gender.Female <;>
        simp [aggStep, h, ih, List.filterMap_cons]

theorem aggLoop_eq_flatMap (m : List (UserRecord × CacheEntry)) (acc : AggState) :
    m.foldl (fun acc r => r.2.directors.foldl (aggStep r.1.rating) acc) acc =
      (acc.1 ++ m.flatMap specTally, acc.2.1 ++ m.flatMap specFemaleBucket,
       acc.2.2 ++ m.flatMap specOtherBucket) := by
  induction m generalizing acc with
  | nil => simp
  | cons r rest ih =>
      rw [List.foldl_cons, ih, foldl_aggStep]
      simp [specTally, specFemaleBucket, specOtherBucket, List.append_assoc]

theorem gm_err (env : FetchEnv) (h : get_movie_dataE env = Except.error ()) :
    get_movie_data env = (none, []) := by
  unfold get_movie_data
  rw [h]

theorem gm_ok (env : FetchEnv) (v : Option Int × List Director)
    (h : get_movie_dataE env = Except.ok v) : get_movie_data env = v := by
  unfold get_movie_data
  rw [h]

theorem gm_success (rs : List SearchEntry) (mid : Int) (crew : List CrewEntry)
    (ds : List Director) (hcl : classifyCrew crew = Except.ok ds) :
    get_movie_data ⟨Except.ok (some (⟨some mid⟩ :: rs)), Except.ok crew⟩ = (some mid, ds) := by
  apply gm_ok
  simp [get_movie_dataE, hcl]

theorem gm_credits_err (rs : List SearchEntry) (mid : Int)
    (crew : List CrewEntry) (hcl : classifyCrew crew = Except.error ()) :
    get_movie_data ⟨Except.ok (some (⟨some mid⟩ :: rs)), Except.ok crew⟩ = (none, []) := by
  apply gm_err
  simp [get_movie_dataE, hcl]

theorem gm_none (env : FetchEnv) (h : (get_movie_data env).1 = none) :
    get_movie_data env = (none, []) := by
  obtain ⟨s, c⟩ := env
  cases s with
  | error e => rfl
  | ok resOpt =>
    cases resOpt with
    | none => rfl
    | some l =>
      cases l with
      | nil => rfl
      | cons r rs =>
        obtain ⟨rid⟩ := r
        cases rid with
        | none => rfl
        | some mid =>
          cases c with
          | error e => rfl
          | ok crew =>
            cases hcl : classifyCrew crew with
            | error e => exact gm_err _ (by simp [get_movie_dataE, hcl])
            | ok ds =>
                rw [gm_success rs mid crew ds hcl] at h
                cases h

theorem classifyCrew_wellKeyed (crew : List CrewEntry) (h : crewWellKeyed crew) :
    classifyCrew crew = Except.ok (keepDirectorsSpec crew) := by
  induction crew with
  | nil => rfl
  | cons p rest ih =>
      obtain ⟨hj, hd⟩ := h p (List.mem_cons_self p rest)
      have hrest : crewWellKeyed rest := fun q hq => h q (List.mem_cons_of_mem p hq)
      cases hpj : p.job with
      | none => exact absurd hpj hj
      | some j =>
          by_cases hjd : j = "Director"
          · subst hjd
            obtain ⟨hn, hg⟩ := hd hpj
            cases hpn : p.name with
            | none => exact absurd hpn hn
            | some nm =>
                cases hpg : p.gender with
                | none => exact absurd hpg hg
                | some g =>
                    simp [classifyCrew, keepDirectorsSpec, hpj, hpn, hpg, ih hrest,
                      List.filterMap_cons]
          · simp [classifyCrew, keepDirectorsSpec, hpj, hjd, ih hrest, List.filterMap_cons]

theorem classifyCrew_badKey (crew : List CrewEntry) (p : CrewEntry) (hp : p ∈ crew)
    (hbad : p.job = none ∨
      (p.job = some "Director" ∧ (p.name = none ∨ p.gender = none))) :
    classifyCrew crew = Except.error () := by
  induction crew with
  | nil => cases hp
  | cons q rest ih =>
      rcases List.mem_cons.mp hp with rfl | hmem
      · rcases hbad with hj | ⟨hj, hng⟩
        · simp [classifyCrew, hj]
        · rcases hng with hn | hg
          · simp [classifyCrew, hj, hn]
          · cases hqn : p.name with
            | none => simp [classifyCrew, hj, hqn]
            | some nm => simp [classifyCrew, hj, hqn, hg]
      · cases hqj : q.job with
        | none => simp [classifyCrew, hqj]
        | some j =>
            by_cases hjd : j = "Director"
            · subst hjd
              cases hqn : q.name with
              | none => simp [classifyCrew, hqj, hqn]
              | some nm =>
                  cases hqg : q.gender with
                  | none => simp [classifyCrew, hqj, hqn, hqg]
                  | some g => simp [classifyCrew, hqj, hqn, hqg, ih hmem]
            · simp [classifyCrew, hqj, hjd, ih hmem]

/-! Claim theorems. -/

/-- C1: the aggregation loop walks each merged record's director list
and, per (record, director) pair, a Female director appends the
director's name to the tally and the record's rating to the female
bucket, while any other director appends the record's rating to the
other bucket; a record with an empty director list contributes to
neither bucket, and a record with two Female co-directors contributes
its rating twice to the female bucket and both names to the tally. -/
theorem c1_per_director_accumulation :
    (∀ m : List (UserRecord × CacheEntry),
        aggLoop m = (m.flatMap specTally, m.flatMap specFemaleBucket,
          m.flatMap specOtherBucket)) ∧
    (∀ u : UserRecord, ∀ e : CacheEntry, e.directors = [] →
        aggLoop [(u, e)] = ([], [], [])) ∧
    (∀ u : UserRecord, ∀ e : CacheEntry, ∀ n₁ n₂ : String,
        e.directors = [⟨n₁, Gender.Female⟩, ⟨n₂, Gender.Female⟩] →
        aggLoop [(u, e)] = ([n₁, n₂], [u.rating, u.rating], [])) := by
  refine ⟨fun m => ?_, fun u e h => ?_, fun u e n₁ n₂ h => ?_⟩
  · simpa using aggLoop_eq_flatMap m ([], [], [])
  · simp [aggLoop, h]
  · simp [aggLoop, h, aggStep]

/-- Witness for C1 at concrete inputs. -/
theorem c1_per_director_accumulation_witness :
    aggLoop [(⟨"A", "2000", 4, "u"⟩, ⟨"A", "2000", "u", some 7, []⟩)] = ([], [], []) ∧
    aggLoop [(⟨"A", "2000", 4, "u"⟩,
        ⟨"A", "2000", "u", some 7, [⟨"N", Gender.Female⟩, ⟨"P", Gender.Female⟩]⟩)] =
      (["N", "P"], [4, 4], []) :=
  ⟨c1_per_director_accumulation.2.1 ⟨"A", "2000", 4, "u"⟩
      ⟨"A", "2000", "u", some 7, []⟩ rfl,
   c1_per_director_accumulation.2.2 ⟨"A", "2000", 4, "u"⟩
      ⟨"A", "2000", "u", some 7, [⟨"N", Gender.Female⟩, ⟨"P", Gender.Female⟩]⟩ "N" "P" rfl⟩

/-- C3: whenever any step of a fetch raises (network error, timeout,
malformed response — `get_movie_dataE` evaluating to `error`), the
call returns (null, []) to its caller instead of propagating, and the
batch result at any position depends only on that position's row and
its own network environment, so one title's failure does not alter any
other title's result. -/
theorem c3_failure_containment :
    (∀ env : FetchEnv, get_movie_dataE env = Except.error () →
        get_movie_data env = (none, [])) ∧
    (∀ e₁ e₂ : String → String → FetchEnv, ∀ rows : List UserRecord, ∀ i : Nat,
        (∀ h : i < rows.length,
            e₁ (rows[i]).name (rows[i]).year = e₂ (rows[i]).name (rows[i]).year) →
        (gatherFetch e₁ rows)[i]? = (gatherFetch e₂ rows)[i]?) := by
  refine ⟨gm_err, fun e₁ e₂ rows i hagree => ?_⟩
  by_cases h : i < rows.length
  · have key : ∀ ef : String → String → FetchEnv,
        (gatherFetch ef rows)[i]? = some (get_movie_data (ef (rows[i]).name (rows[i]).year)) := by
      intro ef
      simp [gatherFetch, List.getElem?_map, List.getElem?_eq_getElem h]
    rw [key e₁, key e₂, hagree h]
  · have hlen : rows.length ≤ i := Nat.le_of_not_lt h
    rw [List.getElem?_eq_none (by simpa [gatherFetch] using hlen),
      List.getElem?_eq_none (by simpa [gatherFetch] using hlen)]

/-- Witness for C3: a fetch whose search request raises returns
(null, []), and batch positions with equal environments agree. -/
theorem c3_failure_containment_witness :
    get_movie_data ⟨Except.error (), Except.error ()⟩ = (none, []) ∧
    (gatherFetch (fun _ _ => ⟨Except.error (), Except.error ()⟩) [⟨"M", "2001", 5, "u"⟩])[0]? =
      (gatherFetch (fun _ _ => ⟨Except.error (), Except.error ()⟩) [⟨"M", "2001", 5, "u"⟩])[0]? :=
  ⟨c3_failure_containment.1 ⟨Except.error (), Except.error ()⟩ rfl,
   c3_failure_containment.2 (fun _ _ => ⟨Except.error (), Except.error ()⟩)
     (fun _ _ => ⟨Except.error (), Except.error ()⟩) [⟨"M", "2001", 5, "u"⟩] 0
     (fun _ => rfl)⟩

/-- C4 counterexample: a crew entry whose job is "Director" but whose
gender key is missing does not yield a per-person Other
classification — the `KeyError` aborts the whole call, which returns
(null, []) instead of (7, [Ada/Other]). -/
theorem c4_missing_gender_cex :
    get_movie_data ⟨Except.ok (some [⟨some 7⟩]),
        Except.ok [⟨some "Ada", some "Director", none⟩]⟩ = (none, []) ∧
    ((none, []) : Option Int × List Director) ≠ (some 7, [⟨"Ada", Gender.Other⟩]) :=
  ⟨rfl, by decide⟩

/-- C4 (amended): for a fetch with a non-empty search result whose
first entry carries an id, the fetcher takes that id as the
external_id, keeps exactly the crew entries whose job equals
"Director", and classifies each kept person as Female exactly when the
present integer gender code equals 1 and as Other for every other
present code — provided every crew entry has a job key and every kept
entry has name and gender keys.  A crew entry with a missing job key,
or a kept entry with a missing name or gender key, makes the whole
call return (null, []) through the exception handler instead of a
per-person Other classification.  A search returning zero results (or
no results key) yields (null, []). -/
theorem c4_director_filter_and_classification :
    (∀ rs : List SearchEntry, ∀ mid : Int, ∀ crew : List CrewEntry,
        crewWellKeyed crew →
        get_movie_data ⟨Except.ok (some (⟨some mid⟩ :: rs)), Except.ok crew⟩ =
          (some mid, keepDirectorsSpec crew)) ∧
    (∀ rs : List SearchEntry, ∀ mid : Int, ∀ crew : List CrewEntry, ∀ p : CrewEntry,
        p ∈ crew →
        (p.job = none ∨ (p.job = some "Director" ∧ (p.name = none ∨ p.gender = none))) →
        get_movie_data ⟨Except.ok (some (⟨some mid⟩ :: rs)), Except.ok crew⟩ = (none, [])) ∧
    (∀ credits, get_movie_data ⟨Except.ok (some []), credits⟩ = (none, [])) ∧
    (∀ credits, get_movie_data ⟨Except.ok none, credits⟩ = (none, [])) := by
  refine ⟨fun rs mid crew h => ?_, fun rs mid crew p hp hbad => ?_,
    fun _ => rfl, fun _ => rfl⟩
  · exact gm_success rs mid crew _ (classifyCrew_wellKeyed crew h)
  · exact gm_credits_err rs mid crew (classifyCrew_badKey crew p hp hbad)

/-- Witness for C4 (amended) at concrete inputs. -/
theorem c4_director_filter_and_classification_witness :
    get_movie_data ⟨Except.ok (some [⟨some 7⟩]),
        Except.ok [⟨some "Ada", some "Director", some 1⟩,
          ⟨some "Bob", some "Writer", some 0⟩,
          ⟨some "Eve", some "Director", some 2⟩]⟩ =
      (some 7, [⟨"Ada", Gender.Female⟩, ⟨"Eve", Gender.Other⟩]) ∧
    get_movie_data ⟨Except.ok (some [⟨some 7⟩]),
        Except.ok [⟨some "Ada", none, some 1⟩]⟩ = (none, []) ∧
    get_movie_data ⟨Except.ok (some []), Except.ok []⟩ = (none, []) :=
  ⟨c4_director_filter_and_classification.1 [] 7
      [⟨some "Ada", some "Director", some 1⟩, ⟨some "Bob", some "Writer", some 0⟩,
        ⟨some "Eve", some "Director", some 2⟩] (by decide),
   c4_director_filter_and_classification.2.1 [] 7 [⟨some "Ada", none, some 1⟩]
      ⟨some "Ada", none, some 1⟩ (by decide) (Or.inl rfl),
   c4_director_filter_and_classification.2.2.1 (Except.ok [])⟩

/-- C5 counterexample: a fetch that finds a match whose id is 0 is
stored with a null external_id (the falsy-integer cast of line 86) and
a non-empty directors list, so "external_id is null iff no match was
found" and "null implies empty directors" both fail at id 0. -/
theorem c5_id_zero_cex :
    get_movie_data ⟨Except.ok (some [⟨some 0⟩]),
        Except.ok [⟨some "Ada", some "Director", some 1⟩]⟩ =
      (some 0, [⟨"Ada", Gender.Female⟩]) ∧
    (analyze (fun _ _ => ⟨Except.ok (some [⟨some 0⟩]),
          Except.ok [⟨some "Ada", some "Director", some 1⟩]⟩)
        [⟨some "M", "2001", some 5, "u"⟩] []).2 =
      [⟨"M", "2001", "u", none, [⟨"Ada", Gender.Female⟩]⟩] :=
  ⟨rfl, rfl⟩

/-- C5 (amended): a stored entry's external_id is null iff the fetch
returned no id (no match / contained failure) or returned the falsy id
0; a fetch returning no id also returns an empty directors list (so
those null entries have empty directors), while an id-0 match keeps
its fetched directors; a match with a nonzero id is stored with that
id, never null. -/
theorem c5_null_id_invariant :
    (∀ env : FetchEnv, (get_movie_data env).1 = none →
        get_movie_data env = (none, [])) ∧
    (∀ r : UserRecord, ∀ res : Option Int × List Director,
        ((newRowOf r res).tmdb = none ↔ res.1 = none ∨ res.1 = some 0)) ∧
    (∀ r : UserRecord, ∀ res : Option Int × List Director,
        (newRowOf r res).directors = res.2) := by
  refine ⟨gm_none, fun r res => ?_, fun r res => rfl⟩
  rcases res with ⟨mid, ds⟩
  cases mid with
  | none => simp [newRowOf]
  | some k => by_cases hk : k = 0 <;> simp [newRowOf, hk]

/-- Witness for C5 (amended) at concrete inputs. -/
theorem c5_null_id_invariant_witness :
    get_movie_data ⟨Except.error (), Except.error ()⟩ = (none, []) ∧
    ((newRowOf ⟨"M", "2001", 5, "u"⟩ (some 0, [⟨"Ada", Gender.Female⟩])).tmdb = none ↔
      (some 0 : Option Int) = none ∨ (some 0 : Option Int) = some 0) :=
  ⟨c5_null_id_invariant.1 ⟨Except.error (), Except.error ()⟩ rfl,
   c5_null_id_invariant.2.1 ⟨"M", "2001", 5, "u"⟩ (some 0, [⟨"Ada", Gender.Female⟩])⟩

/-- C2 counterexample: two identical user records whose shared key is
missing from the cache trigger two Fetcher calls — the partition is
over rows of `to_fetch`, not over distinct keys, so the distinct
missing key count (1) differs from the call count (2). -/
theorem c2_duplicate_rows_cex :
    (fetchCalls [⟨"M", "2001", 5, "u"⟩, ⟨"M", "2001", 5, "u"⟩] []).length = 2 ∧
    (([⟨"M", "2001", 5, "u"⟩, ⟨"M", "2001", 5, "u"⟩] : List UserRecord).map
        userKey).eraseDups.length = 1 :=
  ⟨rfl, by decide⟩

/-- C2 (amended): the fetched keys are those of the user records whose
key is absent from the cache, and exactly one Fetcher call is issued
per such user record (per row of `to_fetch`), so two user records
sharing the same missing key cause two fetches, not one. -/
theorem c2_one_call_per_missing_row :
    (∀ users : List UserRecord, ∀ cache : List CacheEntry,
        fetchCalls users cache =
          (users.filter fun r => ! isKnown cache r).map fun r => (r.name, r.year)) ∧
    (∀ users : List UserRecord, ∀ cache : List CacheEntry,
        ∀ c : String × String, c ∈ fetchCalls users cache →
        ∃ r, r ∈ users ∧ ¬ isKnown cache r = true ∧ c = (r.name, r.year)) ∧
    (fetchCalls [⟨"M", "2001", 5, "u"⟩, ⟨"M", "2001", 5, "u"⟩] []).length = 2 := by
  refine ⟨fun users cache => rfl, fun users cache c hc => ?_, rfl⟩
  rcases List.mem_map.mp hc with ⟨r, hr, rfl⟩
  rcases List.mem_filter.mp hr with ⟨hmem, hflt⟩
  exact ⟨r, hmem, by simpa using hflt, rfl⟩

/-- Witness for C2 (amended) at a concrete input. -/
theorem c2_one_call_per_missing_row_witness :
    ∃ r, r ∈ ([⟨"M", "2001", 5, "u"⟩] : List UserRecord) ∧
      ¬ isKnown [] r = true ∧ ("M", "2001") = (r.name, r.year) :=
  c2_one_call_per_missing_row.2.1 [⟨"M", "2001", 5, "u"⟩] [] ("M", "2001") (by decide)

/-- C6: top_female_picks contains exactly the merged records with at
least one Female director whose rating equals the maximum rating among
those female-directed records; rendering substitutes 0 for a null
external_id in the output only, while the cache returned by the
pipeline is exactly the enrichment result, untouched by output
formatting. -/
theorem c6_top_female_picks :
    (∀ m : List (UserRecord × CacheEntry), topFemalePicks m = topFemalePicksSpec m) ∧
    (∀ r : UserRecord × CacheEntry, r.2.tmdb = none → (renderPick r).tmdb = 0) ∧
    (∀ envOf : String → String → FetchEnv, ∀ raw : List RawRow, ∀ c0 : List CacheEntry,
        (analyze envOf raw c0).2 = enrich envOf (cleanRows raw) c0) := by
  refine ⟨fun m => ?_, fun r h => by simp [renderPick, h], fun envOf raw c0 => rfl⟩
  unfold topFemalePicks
  split
  · next heq =>
      symm
      unfold topFemalePicksSpec
      rw [List.map_eq_nil_iff]
      apply List.filter_eq_nil_iff.mpr
      intro a ha
      have hfa := List.filter_eq_nil_iff.mp heq a ha
      simp only [Bool.not_eq_true] at hfa
      simp [hfa]
  · next x xs heq =>
      unfold topFemalePicksSpec femaleDirected
      rw [List.filter_filter]
      simp only [Bool.and_comm]

/-- Witness for C6 at a concrete merged row with a null external_id. -/
theorem c6_top_female_picks_witness :
    topFemalePicks [(⟨"M", "2001", 5, "u"⟩,
        ⟨"M", "2001", "u", none, [⟨"Ada", Gender.Female⟩]⟩)] =
      topFemalePicksSpec [(⟨"M", "2001", 5, "u"⟩,
        ⟨"M", "2001", "u", none, [⟨"Ada", Gender.Female⟩]⟩)] ∧
    (renderPick (⟨"M", "2001", 5, "u"⟩,
        ⟨"M", "2001", "u", none, [⟨"Ada", Gender.Female⟩]⟩)).tmdb = 0 :=
  ⟨c6_top_female_picks.1 [(⟨"M", "2001", 5, "u"⟩,
      ⟨"M", "2001", "u", none, [⟨"Ada", Gender.Female⟩]⟩)],
   c6_top_female_picks.2.1 (⟨"M", "2001", 5, "u"⟩,
      ⟨"M", "2001", "u", none, [⟨"Ada", Gender.Female⟩]⟩) rfl⟩

/-- C7: female_avg is the arithmetic mean of the female bucket and
other_avg the mean of the other bucket, each 0 when its bucket is
empty; an empty upload yields female_avg = 0, other_avg = 0,
most_watched_female_director = null, top_female_picks = [] and an
unchanged cache. -/
theorem c7_means_and_empty_input :
    (∀ envOf : String → String → FetchEnv, ∀ raw : List RawRow, ∀ c0 : List CacheEntry,
        (analyze envOf raw c0).1.female_avg =
          meanOrZero (aggLoop (merged (cleanRows raw)
            (enrich envOf (cleanRows raw) c0))).2.1 ∧
        (analyze envOf raw c0).1.other_avg =
          meanOrZero (aggLoop (merged (cleanRows raw)
            (enrich envOf (cleanRows raw) c0))).2.2) ∧
    (∀ l : List ℚ, meanOrZero l = if l = [] then 0 else l.sum / l.length) ∧
    (∀ envOf : String → String → FetchEnv, ∀ c0 : List CacheEntry,
        analyze envOf [] c0 =
          ({ female_avg := 0, other_avg := 0, most_watched := none, picks := [] }, c0)) := by
  refine ⟨fun envOf raw c0 => ⟨rfl, rfl⟩, fun l => rfl, fun envOf c0 => ?_⟩
  simp [analyze, cleanRows, enrich, toFetch, newRows, gatherFetch, merged, aggLoop,
    meanOrZero, mostCommon1, directorCounts, topFemalePicks, femaleDirected]
  rfl

theorem newRows_gather (envOf : String → String → FetchEnv) (l : List UserRecord) :
    newRows l (gatherFetch envOf l) =
      l.map fun r => newRowOf r (get_movie_data (envOf r.name r.year)) := by
  unfold newRows gatherFetch
  rw [List.zipWith_map_right, List.zipWith_same]

theorem entryKey_newRowOf (r : UserRecord) (res : Option Int × List Director) :
    entryKey (newRowOf r res) = userKey r := rfl

theorem toFetch_after_enrich (envOf : String → String → FetchEnv)
    (users : List UserRecord) (c0 : List CacheEntry) :
    toFetch users (enrich envOf users c0) = [] := by
  unfold toFetch
  apply List.filter_eq_nil_iff.mpr
  intro r hr
  simp only [Bool.not_eq_true', Bool.not_not, Bool.not_eq_false]
  unfold enrich isKnown
  rw [List.any_append]
  by_cases hk : isKnown c0 r
  · unfold isKnown at hk
    rw [hk, Bool.true_or]
  · have hany : ((newRows (toFetch users c0) (gatherFetch envOf (toFetch users c0))).any
        fun e => decide (entryKey e = userKey r)) = true := by
      rw [newRows_gather]
      apply List.any_eq_true.mpr
      refine ⟨newRowOf r (get_movie_data (envOf r.name r.year)), ?_, ?_⟩
      · exact List.mem_map_of_mem _ (List.mem_filter.mpr ⟨hr, by simp [hk]⟩)
      · simp [entryKey_newRowOf]
    rw [hany, Bool.or_true]

/-- C8: a second run of the enrichment on the same upload, against the
cache left by the first run, issues zero Fetcher calls — after the
first run every key of the (cleaned) input is present in the cache, so
the missing partition is empty. -/
theorem c8_second_run_no_fetch :
    ∀ envOf : String → String → FetchEnv, ∀ raw : List RawRow, ∀ c0 : List CacheEntry,
      fetchCalls (cleanRows raw) ((analyze envOf raw c0).2) = [] := by
  intro envOf raw c0
  show fetchCalls (cleanRows raw) (enrich envOf (cleanRows raw) c0) = []
  unfold fetchCalls
  rw [toFetch_after_enrich]
  rfl

/-- C9: the cache after a run extends the cache before it — the append
concatenates the new rows after the existing ones, so every
pre-existing entry is still present and the key set only grows. -/
theorem c9_cache_monotone :
    ∀ envOf : String → String → FetchEnv, ∀ raw : List RawRow, ∀ c0 : List CacheEntry,
      (∃ tail, (analyze envOf raw c0).2 = c0 ++ tail) ∧
      (∀ e, e ∈ c0 → e ∈ (analyze envOf raw c0).2) := by
  intro envOf raw c0
  constructor
  · exact ⟨newRows (toFetch (cleanRows raw) c0)
      (gatherFetch envOf (toFetch (cleanRows raw) c0)), rfl⟩
  · intro e he
    show e ∈ enrich envOf (cleanRows raw) c0
    exact List.mem_append_left _ he

/-- Witness for C9 at a concrete cache. -/
theorem c9_cache_monotone_witness :
    (∃ tail, (analyze (fun _ _ => ⟨Except.error (), Except.error ()⟩) []
        [⟨"C", "1999", "u", some 3, []⟩]).2 = [⟨"C", "1999", "u", some 3, []⟩] ++ tail) ∧
    (⟨"C", "1999", "u", some 3, []⟩ : CacheEntry) ∈
      (analyze (fun _ _ => ⟨Except.error (), Except.error ()⟩) []
        [⟨"C", "1999", "u", some 3, []⟩]).2 :=
  ⟨(c9_cache_monotone (fun _ _ => ⟨Except.error (), Except.error ()⟩) []
      [⟨"C", "1999", "u", some 3, []⟩]).1,
   (c9_cache_monotone (fun _ _ => ⟨Except.error (), Except.error ()⟩) []
      [⟨"C", "1999", "u", some 3, []⟩]).2 ⟨"C", "1999", "u", some 3, []⟩
      (List.mem_singleton.mpr rfl)⟩

theorem cleanRows_filter_good (raw : List RawRow) :
    cleanRows (raw.filter goodRow) = cleanRows raw := by
  induction raw with
  | nil => rfl
  | cons r rest ih =>
      cases hn : r.name <;> cases hq : r.rating <;>
        simp [cleanRows, goodRow, hn, hq, List.filter_cons, List.filterMap_cons] <;>
        simpa [cleanRows] using ih

/-- C10: an uploaded row with a missing Name or a missing/non-numeric
Rating is dropped at the start of the pipeline: deleting such rows
from the upload changes nothing — not the cleaned records, not the
issued Fetcher calls, and not the analysis result or the stored
cache.  Hence such a row triggers no fetch, is never written to the
cache, and contributes to no bucket, tally, or pick. -/
theorem c10_invalid_rows_dropped :
    (∀ raw : List RawRow, cleanRows (raw.filter goodRow) = cleanRows raw) ∧
    (∀ envOf : String → String → FetchEnv, ∀ raw : List RawRow, ∀ c0 : List CacheEntry,
        analyze envOf (raw.filter goodRow) c0 = analyze envOf raw c0) ∧
    (∀ raw : List RawRow, ∀ c0 : List CacheEntry,
        fetchCalls (cleanRows (raw.filter goodRow)) c0 = fetchCalls (cleanRows raw) c0) := by
  refine ⟨cleanRows_filter_good, fun envOf raw c0 => ?_, fun raw c0 => ?_⟩
  · unfold analyze
    rw [cleanRows_filter_good]
  · rw [cleanRows_filter_good]

end WomenAnalytics
